import Mathlib

/-!
Verification of the `inei` EXIF/JPEG parser core.

The TypeScript sources are shallowly embedded: the bounds-checked byte
window (`ByteStream`, src/byte-stream.ts), the JPEG segment walkers
(src/jpeg.ts in both repository snapshots), the TIFF/EXIF directory engine
(src/exif-sections.ts), the value simplification pass (src/simplify.ts,
src/date-util.ts, src/offsets.ts) and the orchestrating parser
(src/parser.ts).

Modelling conventions:
* bytes are `Nat` values; byte lists replace `Uint8Array` views (windows
  are materialised slices, faithful because the underlying storage is
  immutable and a view never escapes its own bounds);
* JavaScript numbers carried in decoded tag values are modelled as `ℚ`
  (every value the decoders produce is an integer or a quotient of
  integers; the guards in the sources prevent division by zero);
* `f32`/`f64` return the raw bit pattern as a `Nat`: no claim concerns
  IEEE semantics, only the bounds check and the cursor movement;
* mutating methods are embedded in state-passing style.  `Rd α` is the
  result of a read on a stream object: on failure (`RangeError` thrown)
  the object survives with its state unchanged, so errors also carry the
  resulting stream state;
* callbacks (`visitor`, `onTag`) are embedded as fold functions or as
  returned event lists, preserving invocation order.
-/

/-- A byte window: `src/byte-stream.ts` class `ByteStream`.  `data` is the
bytes of this window (the `DataView` range), `off` the cursor, `little`
the endianness flag, `base` the absolute offset of the window start. -/
structure ByteStream where
  data : List Nat
  off : Nat
  little : Bool
  base : Nat
  deriving DecidableEq

namespace ByteStream

/-- `size()`: byte length of the window. -/
def size (s : ByteStream) : Nat := s.data.length

/-- `tell()`: current cursor. -/
def tell (s : ByteStream) : Nat := s.off

/-- `remaining()`: `size() - offset`. -/
def remaining (s : ByteStream) : Nat := s.size - s.off

/-- `baseOffset()`. -/
def baseOffset (s : ByteStream) : Nat := s.base

/-- `toAbsolute(localOffset)`. -/
def toAbsolute (s : ByteStream) (localOffset : Nat := 0) : Nat := s.base + localOffset

/-- `setEndian(endian)` (here: the resulting stream). -/
def setEndian (s : ByteStream) (little : Bool) : ByteStream := { s with little := little }

end ByteStream

/-- Result of a read operation on a `ByteStream`.  The stream in `err`
is the state of the object after the exception was thrown (the sources
throw before mutating, so it equals the input state). -/
inductive Rd (α : Type) where
  | ok (v : α) (s : ByteStream)
  | err (msg : String) (s : ByteStream)
  deriving DecidableEq

/-- Sequencing of reads; an error propagates with its stream state. -/
def Rd.and_then {α β : Type} (r : Rd α) (f : α → ByteStream → Rd β) : Rd β :=
  match r with
  | .ok v s => f v s
  | .err m s => .err m s

namespace ByteStream

/-- `seek(pos)`: checked cursor move.  The source also rejects negative
positions; positions are naturals here. -/
def seek (s : ByteStream) (pos : Nat) : Rd Unit :=
  if pos > s.size then .err "seek OOB" s
  else .ok () { s with off := pos }

/-- `skip(n) = seek(cursor + n)` (the source also allows negative `n`;
no caller in the core uses one). -/
def skip (s : ByteStream) (n : Nat) : Rd Unit := s.seek (s.off + n)

/-- `branch(start, length?)`: zero-copy sub-window over
`[start, start+length)`.  `!range` in the source treats both an omitted
length and an explicit `0` as "rest of this window".  A negative
computed range escapes the `branch OOB` check but makes the
`Uint8Array` constructor throw. -/
def branch (s : ByteStream) (start : Nat) (length : Option Nat := none) : Except String ByteStream :=
  let range : Int :=
    match length with
    | none => (s.size : Int) - start
    | some r => if r = 0 then (s.size : Int) - start else (r : Int)
  if (start : Int) + range > (s.size : Int) then .error "branch OOB"
  else if range < 0 then .error "invalid typed array length"
  else .ok { data := (s.data.drop start).take range.toNat, off := 0,
             little := s.little, base := s.base + start }

/-- `slice(len)`: checked copy-out of `len` bytes, advancing the cursor. -/
def slice (s : ByteStream) (len : Nat) : Rd (List Nat) :=
  if s.remaining < len then .err "slice OOB" s
  else .ok ((s.data.drop s.off).take len) { s with off := s.off + len }

/-- `readString(len)`: `slice` followed by text decoding; the bytes are
returned (all comparisons and strips in the core are ASCII-range, where
UTF-8 decoding is the identity on bytes). -/
def readString (s : ByteStream) (len : Nat) : Rd (List Nat) := s.slice len

/-- `u8()`. -/
def u8 (s : ByteStream) : Rd Nat :=
  if s.remaining < 1 then .err "read OOB" s
  else .ok (s.data.getD s.off 0) { s with off := s.off + 1 }

/-- `i8()`. -/
def i8 (s : ByteStream) : Rd Int :=
  if s.remaining < 1 then .err "read OOB" s
  else
    let v := s.data.getD s.off 0
    .ok (if v < 128 then (v : Int) else (v : Int) - 256) { s with off := s.off + 1 }

/-- Combine two bytes per the endianness flag (`DataView.getUint16`). -/
def getU16 (little : Bool) (b0 b1 : Nat) : Nat :=
  if little then b1 * 256 + b0 else b0 * 256 + b1

/-- Combine four bytes per the endianness flag (`DataView.getUint32`). -/
def getU32 (little : Bool) (b0 b1 b2 b3 : Nat) : Nat :=
  if little then ((b3 * 256 + b2) * 256 + b1) * 256 + b0
  else ((b0 * 256 + b1) * 256 + b2) * 256 + b3

/-- `u16()`. -/
def u16 (s : ByteStream) : Rd Nat :=
  if s.remaining < 2 then .err "read OOB" s
  else .ok (getU16 s.little (s.data.getD s.off 0) (s.data.getD (s.off + 1) 0))
        { s with off := s.off + 2 }

/-- `i16()`. -/
def i16 (s : ByteStream) : Rd Int :=
  if s.remaining < 2 then .err "read OOB" s
  else
    let v := getU16 s.little (s.data.getD s.off 0) (s.data.getD (s.off + 1) 0)
    .ok (if v < 2 ^ 15 then (v : Int) else (v : Int) - 2 ^ 16) { s with off := s.off + 2 }

/-- `u32()`. -/
def u32 (s : ByteStream) : Rd Nat :=
  if s.remaining < 4 then .err "read OOB" s
  else .ok (getU32 s.little (s.data.getD s.off 0) (s.data.getD (s.off + 1) 0)
              (s.data.getD (s.off + 2) 0) (s.data.getD (s.off + 3) 0))
        { s with off := s.off + 4 }

/-- `i32()`. -/
def i32 (s : ByteStream) : Rd Int :=
  if s.remaining < 4 then .err "read OOB" s
  else
    let v := getU32 s.little (s.data.getD s.off 0) (s.data.getD (s.off + 1) 0)
              (s.data.getD (s.off + 2) 0) (s.data.getD (s.off + 3) 0)
    .ok (if v < 2 ^ 31 then (v : Int) else (v : Int) - 2 ^ 32) { s with off := s.off + 4 }

/-- `f32()`: bounds check and cursor movement of the 4-byte float read;
the value is the raw bit pattern (IEEE decoding is irrelevant to every
claim, and no EXIF type uses it). -/
def f32 (s : ByteStream) : Rd Nat :=
  if s.remaining < 4 then .err "read OOB" s
  else .ok (getU32 s.little (s.data.getD s.off 0) (s.data.getD (s.off + 1) 0)
              (s.data.getD (s.off + 2) 0) (s.data.getD (s.off + 3) 0))
        { s with off := s.off + 4 }

/-- `f64()`: as `f32`, for the 8-byte read. -/
def f64 (s : ByteStream) : Rd Nat :=
  if s.remaining < 8 then .err "read OOB" s
  else
    let lo := getU32 s.little (s.data.getD s.off 0) (s.data.getD (s.off + 1) 0)
                (s.data.getD (s.off + 2) 0) (s.data.getD (s.off + 3) 0)
    let hi := getU32 s.little (s.data.getD (s.off + 4) 0) (s.data.getD (s.off + 5) 0)
                (s.data.getD (s.off + 6) 0) (s.data.getD (s.off + 7) 0)
    .ok (if s.little then hi * 2 ^ 32 + lo else lo * 2 ^ 32 + hi) { s with off := s.off + 8 }

end ByteStream

/-! ## JPEG segment walker (`src/jpeg.ts`)

The repository holds two snapshots of the walker.  The one imported by the
parser (src/src/jpeg.ts) scans to the first `0xFF` and takes the very next
byte as the marker; the other snapshot (`nextMarker` in
src/unnamed/part_009) additionally skips a run of `0xFF` fill bytes.
Both share the segment-body logic, embedded once as `processSegment`.
Loops carry a fuel argument instantiated at `size + 1`; every iteration
consumes at least one byte, so the fuel branch is unreachable. -/

/-- `isSOF(marker)`: the Start-Of-Frame marker family. -/
def isSOF (marker : Nat) : Bool :=
  marker ∈ [0xc0, 0xc1, 0xc2, 0xc3, 0xc5, 0xc6, 0xc7, 0xc9, 0xca, 0xcb, 0xcd, 0xce, 0xcf]

/-- `let b = stream.u8(); while (b !== 0xff) b = stream.u8();` — consume
bytes up to and including the next `0xFF`. -/
def scanToFF : Nat → ByteStream → Rd Unit
  | 0, s => .err "fuel" s
  | fuel + 1, s =>
    (s.u8).and_then fun b s' =>
      if b = 0xff then .ok () s' else scanToFF fuel s'

/-- `let marker = s.u8(); while (marker === 0xff) marker = s.u8();` —
the fill-byte skip of `nextMarker` (part_009 snapshot only). -/
def skipFillFF : Nat → ByteStream → Rd Nat
  | 0, s => .err "fuel" s
  | fuel + 1, s =>
    (s.u8).and_then fun m s' =>
      if m = 0xff then skipFillFF fuel s' else .ok m s'

/-- `nextMarker(s)` (src/unnamed/part_009 lines 59-73): scan forward to a
`0xFF`, then skip any further `0xFF` fill bytes and return the marker. -/
def nextMarker (s : ByteStream) : Rd Nat :=
  (scanToFF (s.size + 1) s).and_then fun _ s' => skipFillFF (s'.size + 1) s'

/-- RSTn (0xD0–0xD7) and TEM (0x01) are standalone markers. -/
def isStandaloneMarker (marker : Nat) : Bool :=
  (0xd0 ≤ marker ∧ marker ≤ 0xd7) ∨ marker = 0x01

/-- The shared segment body of both `readSections` variants: read the
big-endian 2-byte length, check `payloadLen = len - 2` against the
remaining bytes, branch the payload window at the cursor and advance
past it.  Returns the payload window. -/
def processSegment (s : ByteStream) : Rd ByteStream :=
  (s.u8).and_then fun lenMsb s1 =>
  (s1.u8).and_then fun lenLsb s2 =>
    let len := lenMsb * 256 + lenLsb
    let payloadLen : Int := (len : Int) - 2
    if payloadLen < 0 ∨ payloadLen > (s2.remaining : Int) then
      .err "Corrupt JPEG segment length" s2
    else
      match s2.branch s2.tell (some payloadLen.toNat) with
      | .error e => .err e s2
      | .ok seg =>
        (s2.skip payloadLen.toNat).and_then fun _ s3 => .ok seg s3

/-- Marker loop of the parser's walker (src/src/jpeg.ts lines 64-96): the
marker is the single byte after the first `0xFF` — fill bytes are not
skipped.  The visitor is a fold function over an accumulator. -/
def sectionsLoopA {σ : Type} (visit : Nat → ByteStream → σ → Except String σ) :
    Nat → ByteStream → σ → Rd σ
  | 0, s, _ => .err "fuel" s
  | fuel + 1, s, acc =>
    (scanToFF (s.size + 1) s).and_then fun _ s1 =>
    (s1.u8).and_then fun marker s2 =>
      if marker = 0xd9 ∨ marker = 0xda then .ok acc s2
      else if isStandaloneMarker marker then sectionsLoopA visit fuel s2 acc
      else
        (processSegment s2).and_then fun seg s3 =>
          match visit marker seg acc with
          | .error e => .err e s3
          | .ok acc' => sectionsLoopA visit fuel s3 acc'

/-- Marker loop of the part_009 walker: markers come from `nextMarker`,
which skips `0xFF` fill runs. -/
def sectionsLoopB {σ : Type} (visit : Nat → ByteStream → σ → Except String σ) :
    Nat → ByteStream → σ → Rd σ
  | 0, s, _ => .err "fuel" s
  | fuel + 1, s, acc =>
    (nextMarker s).and_then fun marker s2 =>
      if marker = 0xd9 ∨ marker = 0xda then .ok acc s2
      else if isStandaloneMarker marker then sectionsLoopB visit fuel s2 acc
      else
        (processSegment s2).and_then fun seg s3 =>
          match visit marker seg acc with
          | .error e => .err e s3
          | .ok acc' => sectionsLoopB visit fuel s3 acc'

/-- `readSections` of src/src/jpeg.ts: SOI check, then `sectionsLoopA`. -/
def readSectionsA {σ : Type} (visit : Nat → ByteStream → σ → Except String σ)
    (s : ByteStream) (acc : σ) : Rd σ :=
  (s.u8).and_then fun b0 s1 =>
    if b0 ≠ 0xff then .err "Not a JPEG (missing SOI)" s1
    else (s1.u8).and_then fun b1 s2 =>
      if b1 ≠ 0xd8 then .err "Not a JPEG (missing SOI)" s2
      else sectionsLoopA visit (s2.size + 1) s2 acc

/-- `readSections` of src/unnamed/part_009: SOI check, then `sectionsLoopB`. -/
def readSectionsB {σ : Type} (visit : Nat → ByteStream → σ → Except String σ)
    (s : ByteStream) (acc : σ) : Rd σ :=
  (s.u8).and_then fun b0 s1 =>
    if b0 ≠ 0xff then .err "Not a JPEG (missing SOI)" s1
    else (s1.u8).and_then fun b1 s2 =>
      if b1 ≠ 0xd8 then .err "Not a JPEG (missing SOI)" s2
      else sectionsLoopB visit (s2.size + 1) s2 acc

/-- `{ width, height }` from a Start-Of-Frame segment. -/
structure ImageSize where
  width : Nat
  height : Nat
  deriving DecidableEq

/-- `readSizeFromSOF(seg)`: re-branch big-endian, skip the precision
byte, read height then width. -/
def readSizeFromSOF (seg : ByteStream) : Except String ImageSize :=
  match seg.branch 0 with
  | .error e => .error e
  | .ok s0 =>
    let s := s0.setEndian false
    match (s.u8).and_then (fun _precision s1 =>
      (s1.u16).and_then fun height s2 =>
        (s2.u16).and_then fun width s3 => .ok (height, width) s3) with
    | .ok (h, w) _ => .ok ⟨w, h⟩
    | .err e _ => .error e

/-! ## TIFF/EXIF directory engine (`src/exif-sections.ts`, src/src snapshot)

Decoded values (`RawTagValue`/`SimplifiedTagValue`) live in one variant
type `Val`; JavaScript numbers are `ℚ`.  The `onTag` callback is embedded
as the ordered list of emitted events. -/

/-- `ExifSectionKind`. -/
inductive SectionKind where
  | IFD0
  | SubIFD
  | GPSIFD
  | IFD1
  deriving DecidableEq

/-- Decoded tag values.  `nums` elements are `Option ℚ` because the
simplification pass can put `null` into arrays; `nan` is the
`Number.NaN` branch of `simplifyRationals`. -/
inductive Val where
  | str (v : String)
  | num (q : ℚ)
  | nums (l : List (Option ℚ))
  | pair (a b : ℚ)
  | pairs (l : List (ℚ × ℚ))
  | bytes (b : List Nat)
  | null
  | nan
  deriving DecidableEq

/-- One `onTag(section, tagId, value, format)` invocation. -/
structure Event where
  knd : SectionKind
  tagId : Nat
  value : Val
  fmt : Nat
  deriving DecidableEq

/-- `TYPE_SIZES[type] ?? 0`. -/
def typeSize (t : Nat) : Nat :=
  match t with
  | 1 => 1 | 2 => 1 | 3 => 2 | 4 => 4 | 5 => 8 | 7 => 1 | 9 => 4 | 10 => 8
  | _ => 0

/-- Text decoding of ASCII-range bytes (`TextDecoder('utf-8')` is the
identity on bytes below 0x80, the only bytes the claims exercise). -/
def asciiDecode (l : List Nat) : String := ⟨l.map Char.ofNat⟩

/-- `replace(/\0+$/, '')` on the byte level: strip trailing NUL bytes. -/
def stripTrailingNul (l : List Nat) : List Nat :=
  (l.reverse.dropWhile (· = 0)).reverse

/-- Read `n` elements with a one-element reader. -/
def readCount {α : Type} (read1 : ByteStream → Rd α) : Nat → ByteStream → Rd (List α)
  | 0, s => .ok [] s
  | n + 1, s =>
    (read1 s).and_then fun v s' =>
      (readCount read1 n s').and_then fun vs s'' => .ok (v :: vs) s''

/-- `u8` as a `ℚ`-valued reader. -/
def u8Q (s : ByteStream) : Rd ℚ := (s.u8).and_then fun v s' => .ok ((v : ℚ)) s'

/-- `u16` as a `ℚ`-valued reader. -/
def u16Q (s : ByteStream) : Rd ℚ := (s.u16).and_then fun v s' => .ok ((v : ℚ)) s'

/-- `u32` as a `ℚ`-valued reader. -/
def u32Q (s : ByteStream) : Rd ℚ := (s.u32).and_then fun v s' => .ok ((v : ℚ)) s'

/-- `i32` as a `ℚ`-valued reader. -/
def i32Q (s : ByteStream) : Rd ℚ := (s.i32).and_then fun v s' => .ok ((v : ℚ)) s'

/-- `readOneOrManyNumber`: scalar when `count == 1`, else an array. -/
def readOneOrManyNumber (read1 : ByteStream → Rd ℚ) (count : Nat) (s : ByteStream) : Rd Val :=
  if count = 1 then (read1 s).and_then fun v s' => .ok (.num v) s'
  else (readCount read1 count s).and_then fun l s' => .ok (.nums (l.map some)) s'

/-- Read one `[num, den]` pair. -/
def readPair (read1 : ByteStream → Rd ℚ) (s : ByteStream) : Rd (ℚ × ℚ) :=
  (read1 s).and_then fun a s' => (read1 s').and_then fun b s'' => .ok (a, b) s''

/-- `readOneOrManyPair`: a single pair when `count == 1`, else an array
of pairs. -/
def readOneOrManyPair (read1 : ByteStream → Rd ℚ) (count : Nat) (s : ByteStream) : Rd Val :=
  if count = 1 then (readPair read1 s).and_then fun p s' => .ok (.pair p.1 p.2) s'
  else (readCount (readPair read1) count s).and_then fun l s' => .ok (.pairs l) s'

/-- `readValueInline(s, type, count)` (src/src/exif-sections.ts lines
319-364): only BYTE, SHORT, ASCII and LONG are handled; every other type
— including SLONG — falls to `default: return;` (no value). -/
def readValueInline (s : ByteStream) (ty count : Nat) : Rd (Option Val) :=
  match ty with
  | 1 =>
    if count = 1 then (s.u8).and_then fun v s' => .ok (some (.num (v : ℚ))) s'
    else (readCount u8Q count s).and_then fun l s' => .ok (some (.nums (l.map some))) s'
  | 3 =>
    if count = 1 then (s.u16).and_then fun v s' => .ok (some (.num (v : ℚ))) s'
    else (readCount u16Q count s).and_then fun l s' => .ok (some (.nums (l.map some))) s'
  | 2 =>
    (s.readString count).and_then fun b s' =>
      .ok (some (.str (asciiDecode (stripTrailingNul b)))) s'
  | 4 =>
    if count = 1 then (s.u32).and_then fun v s' => .ok (some (.num (v : ℚ))) s'
    else (readCount u32Q count s).and_then fun l s' => .ok (some (.nums (l.map some))) s'
  | _ => .ok none s

/-- `readValueByType(s, type, count)` (src/src/exif-sections.ts
`READERS` table): covers all eight TIFF types. -/
def readValueByType (s : ByteStream) (ty count : Nat) : Rd (Option Val) :=
  match ty with
  | 1 =>
    if count = 1 then (s.u8).and_then fun v s' => .ok (some (.num (v : ℚ))) s'
    else (s.slice count).and_then fun arr s' =>
      .ok (some (.nums (arr.map fun b => some (b : ℚ)))) s'
  | 2 =>
    (s.readString count).and_then fun b s' =>
      .ok (some (.str (asciiDecode (stripTrailingNul b)))) s'
  | 3 => (readOneOrManyNumber u16Q count s).and_then fun v s' => .ok (some v) s'
  | 4 => (readOneOrManyNumber u32Q count s).and_then fun v s' => .ok (some v) s'
  | 5 => (readOneOrManyPair u32Q count s).and_then fun v s' => .ok (some v) s'
  | 7 => (s.slice count).and_then fun b s' => .ok (some (.bytes b)) s'
  | 9 => (readOneOrManyNumber i32Q count s).and_then fun v s' => .ok (some v) s'
  | 10 => (readOneOrManyPair i32Q count s).and_then fun v s' => .ok (some v) s'
  | _ => .ok none s

/-- The 4-byte inline buffer built by `readIFD`:
`setUint32(0, valueOrOffset, littleEndian)`. -/
def inlineBytes (little : Bool) (v : Nat) : List Nat :=
  let b0 := v % 256
  let b1 := v / 256 % 256
  let b2 := v / 65536 % 256
  let b3 := v / 16777216 % 256
  if little then [b0, b1, b2, b3] else [b3, b2, b1, b0]

/-- Entry loop of `readIFD` (src/src/exif-sections.ts lines 257-304);
entries with no representable value are skipped. -/
def readIFDEntries (tiff : ByteStream) (knd : SectionKind) :
    Nat → ByteStream → Except String (List Event × ByteStream)
  | 0, dir => .ok ([], dir)
  | n + 1, dir =>
    match (dir.u16).and_then (fun tagId d1 =>
      (d1.u16).and_then fun ty d2 =>
        (d2.u32).and_then fun count d3 =>
          (d3.u32).and_then fun vo d4 => .ok (tagId, ty, count, vo) d4) with
    | .err e _ => .error e
    | .ok (tagId, ty, count, vo) d4 =>
      let totalBytes := typeSize ty * count
      let valRes : Except String (Option Val) :=
        if totalBytes ≤ 4 then
          match readValueInline ⟨inlineBytes tiff.little vo, 0, tiff.little, 0⟩ ty count with
          | .ok v _ => .ok v
          | .err e _ => .error e
        else
          match tiff.branch vo with
          | .error e => .error e
          | .ok vs =>
            match readValueByType vs ty count with
            | .ok v _ => .ok v
            | .err e _ => .error e
      match valRes with
      | .error e => .error e
      | .ok none => readIFDEntries tiff knd n d4
      | .ok (some v) =>
        match readIFDEntries tiff knd n d4 with
        | .error e => .error e
        | .ok (evs, d5) => .ok (⟨knd, tagId, v, ty⟩ :: evs, d5)

/-- `readIFD`: entry count, entries, trailing next-IFD offset.  The
`onTag` callback becomes the returned event list. -/
def readIFD (tiff dir : ByteStream) (knd : SectionKind) : Except String (List Event × Nat) :=
  match dir.u16 with
  | .err e _ => .error e
  | .ok numEntries d1 =>
    match readIFDEntries tiff knd numEntries d1 with
    | .error e => .error e
    | .ok (events, d2) =>
      match d2.u32 with
      | .err e _ => .error e
      | .ok nextOff _ => .ok (events, nextOff)

/-- The `onPointer` accumulation (`exifIFDOffset = value` on each numeric
hit, so the last numeric value for the tag wins). -/
def lastNumValue (events : List Event) (tag : Nat) : Option ℚ :=
  events.foldl
    (fun acc e =>
      if e.tagId = tag then
        match e.value with
        | .num q => some q
        | _ => acc
      else acc)
    none

/-- `okNumber(n)`: a finite number strictly greater than zero (`ℚ` is
always finite). -/
def okNum : Option ℚ → Bool
  | some q => 0 < q
  | none => false

/-- Integral `ℚ` to `Nat` (every offset fed to `branch` is a `u32`- or
pointer-derived integer; `okNumber` guarantees positivity first). -/
def qToNat (q : ℚ) : Nat := q.num.toNat

/-- `readIfdAt(tiff, offset, section, onTag)`: skip unless `okNumber`. -/
def readIfdAt (tiff : ByteStream) (offset : Option ℚ) (knd : SectionKind) :
    Except String (List Event) :=
  if okNum offset then
    match tiff.branch (qToNat ((offset).getD 0)) with
    | .error e => .error e
    | .ok dir =>
      match readIFD tiff dir knd with
      | .error e => .error e
      | .ok (events, _) => .ok events
  else .ok []

/-- Thumbnail info collected from IFD1 (plus the compression tag the
source carries along). -/
structure ThumbRec where
  ttype : Nat
  offsetFromTiff : ℚ
  length : ℚ
  compression : Option ℚ
  deriving DecidableEq

/-- The three collector assignments inside `readThumbnailFromIFD1`'s
wrapped `onTag` (each numeric hit overwrites). -/
def collectThumbFields (events : List Event) : Option ℚ × Option ℚ × Option ℚ :=
  events.foldl
    (fun acc e =>
      match e.value with
      | .num q =>
        if e.tagId = 0x0201 then (some q, acc.2.1, acc.2.2)
        else if e.tagId = 0x0202 then (acc.1, some q, acc.2.2)
        else if e.tagId = 0x0103 then (acc.1, acc.2.1, some q)
        else acc
      | _ => acc)
    (none, none, none)

/-- `readThumbnailFromIFD1(tiff, ifd1Offset, onTag)` (src/src lines
135-176): forwards IFD1's tags and returns thumbnail info only when both
the offset and the length passed `okNumber`. -/
def readThumbnailFromIFD1 (tiff : ByteStream) (ifd1Offset : Nat) :
    Except String (Option ThumbRec × List Event) :=
  if ifd1Offset = 0 then .ok (none, [])
  else
    match tiff.branch ifd1Offset with
    | .error e => .error e
    | .ok dir =>
      match readIFD tiff dir .IFD1 with
      | .error e => .error e
      | .ok (events, _) =>
        let f := collectThumbFields events
        if okNum f.1 ∧ okNum f.2.1 then
          .ok (some ⟨if f.2.2 = some 6 then 6 else 1, (f.1).getD 0, (f.2.1).getD 0, f.2.2⟩,
               events)
        else .ok (none, events)

/-- `openTiffFromApp1`: expect `"Exif\0\0"`, return the TIFF stream
branched right after (or `none` with the base offset when the signature
does not match). -/
def openTiffFromApp1 (app1 : ByteStream) : Except String (Option ByteStream × Nat) :=
  match (app1.readString 4).and_then (fun sig a1 =>
    (a1.readString 2).and_then fun nul a2 => .ok (sig, nul) a2) with
  | .err e _ => .error e
  | .ok (sig, nul) a2 =>
    let tiffBase := a2.tell
    if sig ≠ [0x45, 0x78, 0x69, 0x66] ∨ nul ≠ [0, 0] then .ok (none, tiffBase)
    else
      match a2.branch tiffBase with
      | .error e => .error e
      | .ok tiff => .ok (some tiff, tiffBase)

/-- `configureEndian`: `II` → little, `MM` → big, otherwise `none`. -/
def configureEndian (tiff : ByteStream) : Except String (Option ByteStream) :=
  match (tiff.u8).and_then (fun b0 t1 => (t1.u8).and_then fun b1 t2 => .ok (b0, b1) t2) with
  | .err e _ => .error e
  | .ok (b0, b1) t2 =>
    if b0 = 0x49 ∧ b1 = 0x49 then .ok (some (t2.setEndian true))
    else if b0 = 0x4d ∧ b1 = 0x4d then .ok (some (t2.setEndian false))
    else .ok none

/-- `openIFD0`: check the magic `0x002A`, read the IFD0 offset, branch
there.  Returns the directory stream and the advanced TIFF stream. -/
def openIFD0 (tiff : ByteStream) : Except String (Option (ByteStream × ByteStream)) :=
  match tiff.u16 with
  | .err e _ => .error e
  | .ok magic t1 =>
    if magic ≠ 0x002a then .ok none
    else
      match t1.u32 with
      | .err e _ => .error e
      | .ok firstIFDOffset t2 =>
        match t2.branch firstIFDOffset with
        | .error e => .error e
        | .ok ifd0 => .ok (some (ifd0, t2))

/-- Result record of `readIFDs`. -/
structure ReadIFDsResult where
  ok : Bool
  tiffBase : Nat
  thumbnail : Option ThumbRec
  deriving DecidableEq

/-- `readIFDs(app1, onTag)` (src/src/exif-sections.ts lines 186-228):
signature, endianness, magic, IFD0 with pointer collection, SubIFD, GPS
IFD, IFD1/thumbnail.  Events are returned in callback order. -/
def readIFDs (app1 : ByteStream) : Except String (ReadIFDsResult × List Event) :=
  match openTiffFromApp1 app1 with
  | .error e => .error e
  | .ok (none, tiffBase) => .ok (⟨false, tiffBase, none⟩, [])
  | .ok (some tiff0, tiffBase) =>
    match configureEndian tiff0 with
    | .error e => .error e
    | .ok none => .ok (⟨false, tiffBase, none⟩, [])
    | .ok (some tiff1) =>
      match openIFD0 tiff1 with
      | .error e => .error e
      | .ok none => .ok (⟨false, tiffBase, none⟩, [])
      | .ok (some (ifd0, tiff)) =>
        match readIFD tiff ifd0 .IFD0 with
        | .error e => .error e
        | .ok (ev0, ifd1Offset) =>
          match readIfdAt tiff (lastNumValue ev0 0x8769) .SubIFD with
          | .error e => .error e
          | .ok ev1 =>
            match readIfdAt tiff (lastNumValue ev0 0x8825) .GPSIFD with
            | .error e => .error e
            | .ok ev2 =>
              match readThumbnailFromIFD1 tiff ifd1Offset with
              | .error e => .error e
              | .ok (thumb, ev3) =>
                .ok (⟨true, tiffBase, thumb⟩, ev0 ++ ev1 ++ ev2 ++ ev3)

/-! ## Simplification pass (`src/simplify.ts`), date and offset utilities -/

/-- The name→value tag map (`Record<string, SimplifiedTagValue>` with JS
object insertion-order semantics). -/
abbrev TagMap : Type := List (String × Val)

/-- Property lookup. -/
def lookupTag : TagMap → String → Option Val
  | [], _ => none
  | (k, v) :: rest, key => if k = key then some v else lookupTag rest key

/-- `key in tags`. -/
def hasTag (m : TagMap) (key : String) : Bool := (lookupTag m key).isSome

/-- `tags[key] = v`: replace in place when present, append when new. -/
def setTag : TagMap → String → Val → TagMap
  | [], key, v => [(key, v)]
  | (k, w) :: rest, key, v =>
    if k = key then (k, v) :: rest else (k, w) :: setTag rest key v

/-- `toNum` of `simplifyRationals` applied to one pair (array case).
Under the non-default `zeroDenIsNull = false` policy the source writes
`NaN` into the array where this model writes `null`; the default policy
(the only one the parser and the claims use) is exact. -/
def rationalToNum (_zeroDenIsNull : Bool) (p : ℚ × ℚ) : Option ℚ :=
  if p.2 = 0 then none else some (p.1 / p.2)

/-- `simplifyRationals(values, format, opts)` (src/unnamed/part_006 lines
63-84).  `format` is unused by the source body as well.  Pair and
pair-array checks are structural in JS; in this embedding the `pair` and
`pairs` constructors are exactly the shapes those checks accept for
values decoded from RATIONAL/SRATIONAL entries. -/
def simplifyRationals (v : Val) (zeroDenIsNull : Bool := true) : Val :=
  match v with
  | .pair n d =>
    if d = 0 then (if zeroDenIsNull then .null else .nan) else .num (n / d)
  | .pairs l =>
    let out := l.map (rationalToNum zeroDenIsNull)
    match out with
    | [some q] => .num q
    | [none] => .null
    | _ => .nums out
  | x => x

/-- `Array.isArray(v) && typeof v[0..2] === 'number'`: the first three
elements of a JS array value as numbers (no length-3 requirement in the
source; pairs fail the element-type checks). -/
def jsArr3 : Val → Option (ℚ × ℚ × ℚ)
  | .nums (some a :: some b :: some c :: _) => some (a, b, c)
  | _ => none

/-- One latitude/longitude step of `castDegreeValues` (src/unnamed/
part_006 lines 96-139): `sign = ref === pos ? +1 : -1`, decimal degrees
written back under the same name. -/
def castDegreeStep (m : TagMap) (name refName pos : String) : TagMap :=
  match lookupTag m name with
  | some v =>
    match jsArr3 v with
    | some (d, mi, se) =>
      let ref := lookupTag m refName
      let sign : ℚ := if ref = some (.str pos) then 1 else -1
      setTag m name (.num ((d + mi / 60 + se / 3600) * sign))
    | none => m
  | none => m

/-- `castDegreeValues(get, set)`: latitude (ref `"N"`), then longitude
(ref `"E"`). -/
def castDegreeValues (m : TagMap) : TagMap :=
  castDegreeStep (castDegreeStep m "GPSLatitude" "GPSLatitudeRef" "N")
    "GPSLongitude" "GPSLongitudeRef" "E"

/-- Decimal digit test. -/
def isDigit (c : Char) : Bool := '0' ≤ c ∧ c ≤ '9'

/-- Digit value. -/
def digitVal (c : Char) : Nat := c.toNat - 48

/-- Two-digit number. -/
def digits2 (a b : Char) : Nat := digitVal a * 10 + digitVal b

/-- Four-digit number. -/
def digits4 (a b c d : Char) : Nat :=
  ((digitVal a * 10 + digitVal b) * 10 + digitVal c) * 10 + digitVal d

/-- The EXIF date regex `^(\d{4}):(\d{2}):(\d{2}) (\d{2}):(\d{2}):(\d{2})$`. -/
def specMatch : List Char → Option (Nat × Nat × Nat × Nat × Nat × Nat)
  | [y1, y2, y3, y4, c1, o1, o2, c2, d1, d2, sp, h1, h2, c3, m1, m2, c4, s1, s2] =>
    if isDigit y1 ∧ isDigit y2 ∧ isDigit y3 ∧ isDigit y4 ∧ c1 = ':' ∧
        isDigit o1 ∧ isDigit o2 ∧ c2 = ':' ∧ isDigit d1 ∧ isDigit d2 ∧ sp = ' ' ∧
        isDigit h1 ∧ isDigit h2 ∧ c3 = ':' ∧ isDigit m1 ∧ isDigit m2 ∧ c4 = ':' ∧
        isDigit s1 ∧ isDigit s2 then
      some (digits4 y1 y2 y3 y4, digits2 o1 o2, digits2 d1 d2,
            digits2 h1 h2, digits2 m1 m2, digits2 s1 s2)
    else none
  | _ => none

/-- The ISO date regex
`^(\d{4})-(\d{2})-(\d{2})T(\d{2}):(\d{2}):(\d{2})(Z|([+-])(\d{2}):?(\d{2}))$`.
The timezone part is `none` for `Z`, otherwise `(negative?, hours,
minutes)`. -/
def isoMatch : List Char → Option ((Nat × Nat × Nat × Nat × Nat × Nat) × Option (Bool × Nat × Nat))
  | y1 :: y2 :: y3 :: y4 :: dA :: o1 :: o2 :: dB :: d1 :: d2 :: tC :: h1 :: h2 :: cA ::
      m1 :: m2 :: cB :: s1 :: s2 :: rest =>
    if isDigit y1 ∧ isDigit y2 ∧ isDigit y3 ∧ isDigit y4 ∧ dA = '-' ∧
        isDigit o1 ∧ isDigit o2 ∧ dB = '-' ∧ isDigit d1 ∧ isDigit d2 ∧ tC = 'T' ∧
        isDigit h1 ∧ isDigit h2 ∧ cA = ':' ∧ isDigit m1 ∧ isDigit m2 ∧ cB = ':' ∧
        isDigit s1 ∧ isDigit s2 then
      let core := (digits4 y1 y2 y3 y4, digits2 o1 o2, digits2 d1 d2,
                   digits2 h1 h2, digits2 m1 m2, digits2 s1 s2)
      match rest with
      | ['Z'] => some (core, none)
      | [sg, p1, p2, co, p3, p4] =>
        if (sg = '+' ∨ sg = '-') ∧ isDigit p1 ∧ isDigit p2 ∧ co = ':' ∧
            isDigit p3 ∧ isDigit p4 then
          some (core, some (sg = '-', digits2 p1 p2, digits2 p3 p4))
        else none
      | [sg, p1, p2, p3, p4] =>
        if (sg = '+' ∨ sg = '-') ∧ isDigit p1 ∧ isDigit p2 ∧ isDigit p3 ∧ isDigit p4 then
          some (core, some (sg = '-', digits2 p1 p2, digits2 p3 p4))
        else none
      | _ => none
    else none
  | _ => none

/-- Days from the epoch to civil date `(y, m, 1)+(d-1)` (the arithmetic
of ECMAScript `MakeDay`, Gregorian proleptic). -/
def daysFromCivil (y m d : Int) : Int :=
  let y' := if m ≤ 2 then y - 1 else y
  let era : Int := (if 0 ≤ y' then y' else y' - 399) / 400
  let yoe := y' - era * 400
  let doy := (153 * (m + (if 2 < m then -3 else 9)) + 2) / 5 + d - 1
  let doe := yoe * 365 + yoe / 4 - yoe / 100 + doy
  era * 146097 + doe - 719468

/-- `Date.UTC(y, mo-1, d, h, mi, s) / 1000` for integral arguments:
two-digit years map to 19xx, months and days roll over.  (The `NaN`
range clamp of `Date.UTC` is unreachable for regex-bounded fields.) -/
def dateUTCsec (y mo d h mi s : Int) : Int :=
  let yy := if 0 ≤ y ∧ y ≤ 99 then y + 1900 else y
  let ym := yy * 12 + (mo - 1)
  let y' := ym.fdiv 12
  let m' := ym - y' * 12 + 1
  (daysFromCivil y' m' 1 + (d - 1)) * 86400 + h * 3600 + mi * 60 + s

/-- `parseExifDateToEpochSeconds(input)` (src/date-util.ts).  The final
`Date.parse` fallback is host-defined and passed in as `fb` (returning
`none` for `NaN`); no claim reaches it. -/
def parseExifDateToEpochSeconds (fb : String → Option Int) (input : String) : Option Int :=
  if input = "" then none
  else
    match specMatch input.toList with
    | some (y, mo, d, h, mi, s) =>
      some (dateUTCsec (y : Int) (mo : Int) (d : Int) (h : Int) (mi : Int) (s : Int))
    | none =>
      match isoMatch input.toList with
      | some ((y, mo, d, h, mi, s), tz) =>
        let sec := dateUTCsec (y : Int) (mo : Int) (d : Int) (h : Int) (mi : Int) (s : Int)
        match tz with
        | none => some sec
        | some (isMinus, oh, om) =>
          let sign : Int := if isMinus then -1 else 1
          some (sec - sign * ((oh : Int) * 3600 + (om : Int) * 60))
      | none => fb input

/-- One date key of `castDateValues` (src/unnamed/part_006 lines
141-158): strings parsed to epoch seconds overwrite the value. -/
def castDateStep (fb : String → Option Int) (m : TagMap) (name : String) : TagMap :=
  match lookupTag m name with
  | some (.str raw) =>
    match parseExifDateToEpochSeconds fb raw with
    | some ts => setTag m name (.num (ts : ℚ))
    | none => m
  | _ => m

/-- `castDateValues(get, set)`: ModifyDate, DateTimeOriginal, CreateDate
in source order. -/
def castDateValues (fb : String → Option Int) (m : TagMap) : TagMap :=
  castDateStep fb (castDateStep fb (castDateStep fb m "ModifyDate") "DateTimeOriginal")
    "CreateDate"

/-- `parseOffset(s)` of src/offsets.ts: the prefix regex
`^([+-])(\d{2}):(\d{2})`, total seconds. -/
def parseOffset (s : String) : Option Int :=
  match s.toList with
  | sg :: h1 :: h2 :: col :: m1 :: m2 :: _ =>
    if (sg = '+' ∨ sg = '-') ∧ isDigit h1 ∧ isDigit h2 ∧ col = ':' ∧
        isDigit m1 ∧ isDigit m2 then
      some ((if sg = '-' then -1 else 1) *
        ((digits2 h1 h2 : Int) * 3600 + (digits2 m1 m2 : Int) * 60))
    else none
  | _ => none

/-- One (dateKey, offsetKey) pair of `applyExifOffsetTags`:
`tags[tk] = t - sec` when the date is a number and the offset parses. -/
def applyOffsetPair (m : TagMap) (tk okKey : String) : TagMap :=
  match lookupTag m tk, lookupTag m okKey with
  | some (.num t), some (.str off) =>
    match parseOffset off with
    | some sec => setTag m tk (.num (t - (sec : ℚ)))
    | none => m
  | _, _ => m

/-- `applyExifOffsetTags(tags)` (src/offsets.ts): three pairs in source
order. -/
def applyExifOffsetTags (m : TagMap) : TagMap :=
  applyOffsetPair
    (applyOffsetPair (applyOffsetPair m "DateTimeOriginal" "OffsetTimeOriginal")
      "CreateDate" "OffsetTimeDigitized")
    "ModifyDate" "OffsetTime"

/-! ## Orchestrator (`src/parser.ts`)

The tag-name tables (`src/tags.ts`, not part of the core sources) are
parameters `exifNames`/`gpsNames`; every theorem below holds for all
tables.  Likewise `fb` is the host `Date.parse` fallback. -/

/-- `ParserOptions` with the `DEFAULTS` of src/parser.ts.
(`resolveTagNames` is declared but, as in the source, never consulted.) -/
structure ParserOptions where
  readBinaryTags : Bool := false
  resolveTagNames : Bool := true
  simplifyValues : Bool := true
  imageSize : Bool := true
  hidePointers : Bool := true
  returnTags : Bool := true
  deriving DecidableEq

/-- `POINTER_TAGS`. -/
def pointerTags : List Nat := [0x8769, 0x8825, 0x0201, 0x0202, 0x0103]

/-- `makeTagKey(section, tagId)`: GPS directory uses the GPS table,
unknown ids become `tag_0x<hex>`. -/
def makeTagKey (exifNames gpsNames : Nat → Option String) (knd : SectionKind)
    (tagId : Nat) : String :=
  let table := if knd = SectionKind.GPSIFD then gpsNames else exifNames
  (table tagId).getD ("tag_0x" ++ ⟨Nat.toDigits 16 tagId⟩)

/-- `maybeSimplify(value, format, simplify)`. -/
def maybeSimplify (v : Val) (fmt : Nat) (simplify : Bool) : Val :=
  if !simplify then v
  else if fmt = 5 ∨ fmt = 10 then simplifyRationals v true
  else v

/-- The parser's `onTag` callback (src/parser.ts lines 137-159) folded
over the emitted events: skip binary blobs and pointer tags per options,
resolve the key, simplify, and insert only when the key is absent
(first writer wins). -/
def onTagStep (opts : ParserOptions) (exifNames gpsNames : Nat → Option String)
    (m : TagMap) (e : Event) : TagMap :=
  if !opts.readBinaryTags ∧ e.fmt = 7 then m
  else if opts.hidePointers ∧ e.tagId ∈ pointerTags then m
  else
    let key := makeTagKey exifNames gpsNames e.knd e.tagId
    let out := maybeSimplify e.value e.fmt opts.simplifyValues
    if opts.returnTags ∧ !hasTag m key then m ++ [(key, out)] else m

def buildTagsInto (opts : ParserOptions) (exifNames gpsNames : Nat → Option String)
    (init : TagMap) (events : List Event) : TagMap :=
  events.foldl (onTagStep opts exifNames gpsNames) init

/-- Output thumbnail info (`ThumbnailInfo` with `absoluteOffset`). -/
structure ThumbInfo where
  ttype : Nat
  offsetFromTiff : ℚ
  length : ℚ
  absoluteOffset : Option ℚ
  deriving DecidableEq

/-- The parse-time accumulator (the `tags`/`image`/`thumbnail` locals of
`ExifParser.parse`). -/
structure ParseAcc where
  tags : TagMap
  image : Option ImageSize
  thumbnail : Option ThumbInfo
  deriving DecidableEq

/-- The APP1 arm of the parse visitor (src/parser.ts lines 132-170):
run `readIFDs` on a re-branched window, accumulate tags, and when a
thumbnail was found assemble
`absoluteOffset = section.baseOffset() + tiffBase + offsetFromTiff`. -/
def handleApp1 (opts : ParserOptions) (exifNames gpsNames : Nat → Option String)
    (seg : ByteStream) (acc : ParseAcc) : Except String ParseAcc :=
  match seg.branch 0 with
  | .error e => .error e
  | .ok s0 =>
    match readIFDs s0 with
    | .error e => .error e
    | .ok (res, events) =>
      let tags' := buildTagsInto opts exifNames gpsNames acc.tags events
      let thumb' :=
        if res.ok then
          match res.thumbnail with
          | some t =>
            some ⟨t.ttype, t.offsetFromTiff, t.length,
              some ((seg.baseOffset : ℚ) + (res.tiffBase : ℚ) + t.offsetFromTiff)⟩
          | none => acc.thumbnail
        else acc.thumbnail
      .ok ⟨tags', acc.image, thumb'⟩

/-- The section visitor of `ExifParser.parse`: APP1 segments feed the
directory engine, SOF segments feed `readSizeFromSOF` when enabled. -/
def parseVisitor (opts : ParserOptions) (exifNames gpsNames : Nat → Option String) :
    Nat → ByteStream → ParseAcc → Except String ParseAcc :=
  fun marker seg acc =>
    if marker = 0xe1 then handleApp1 opts exifNames gpsNames seg acc
    else if opts.imageSize ∧ isSOF marker then
      match readSizeFromSOF seg with
      | .error e => .error e
      | .ok sz => .ok { acc with image := some sz }
    else .ok acc

/-- `ParsedExif`. -/
structure ParsedExif where
  image : Option ImageSize
  thumbnail : Option ThumbInfo
  tagsRaw : TagMap
  tags : TagMap
  deriving DecidableEq

/-- `ExifErrorCode`. -/
inductive ErrCode where
  | NOT_JPEG
  | NO_EXIF
  | INVALID_TIFF
  | TRUNCATED
  | UNKNOWN
  deriving DecidableEq

/-- `ExifError`. -/
structure ExifError where
  code : ErrCode
  message : String
  deriving DecidableEq

/-- The two result shapes of `ExifParser.parse`. -/
inductive ParseResult where
  | success (d : ParsedExif)
  | failure (e : ExifError)
  deriving DecidableEq

/-- `ExifParser.parse()` (src/parser.ts lines 124-210): walk the JPEG
sections with the visitor, post-process GPS degrees, dates and timezone
offsets, copy the map into `tagsRaw`; any thrown error is caught and
wrapped as an `UNKNOWN`-coded `ExifError`. -/
def parse (stream : ByteStream) (opts : ParserOptions)
    (exifNames gpsNames : Nat → Option String) (fb : String → Option Int) : ParseResult :=
  let run : Except String ParsedExif :=
    match stream.branch 0 with
    | .error e => .error e
    | .ok s0 =>
      match readSectionsA (parseVisitor opts exifNames gpsNames) s0 ⟨[], none, none⟩ with
      | .err e _ => .error e
      | .ok acc _ =>
        let tags1 := castDegreeValues acc.tags
        let tags2 := castDateValues fb tags1
        let tags3 := applyExifOffsetTags tags2
        .ok ⟨acc.image, acc.thumbnail, tags3, tags3⟩
  match run with
  | .ok d => .success d
  | .error e => .failure ⟨.UNKNOWN, e⟩

/-! ## Shared lemmas -/

/-- `branch(0)` succeeds and reproduces the whole window with cursor 0. -/
theorem ByteStream.branch_zero (s : ByteStream) :
    s.branch 0 = .ok ⟨s.data, 0, s.little, s.base⟩ := by
  unfold ByteStream.branch
  simp [ByteStream.size]

/-! ## C1 — `branch` sub-windows -/

/-- A 4-byte window used in the C1 counterexample. -/
def winC1 : ByteStream := ⟨[1, 2, 3, 4], 0, true, 0⟩

/-- C1 counterexample: the claim states that `branch(start, 0)` returns a
window of size 0; on `winC1` (size 4), `branch(1, 0)` returns a window of
size 3 — the explicit length 0 is falsy and falls back to "rest of this
window". -/
theorem C1_branch_len0_counterexample :
    (winC1.branch 1 (some 0)).toOption.map ByteStream.size = some 3 ∧
    (winC1.branch 1 (some 0)).toOption.map ByteStream.size ≠ some 0 := by
  decide

/-- C1 (amended): for `1 ≤ length` and `start + length ≤ w.size()`,
`branch(start, length)` returns the window over `[start, start+length)`
with `base = w.base + start`, independently of `w`'s cursor; an omitted
length defaults to the rest of the window; an explicit length 0 is
treated exactly like an omitted length (not as an empty window); and
`branch` fails with `branch OOB` whenever `1 ≤ length` and
`start + length > w.size()`. -/
theorem C1_branch_amended (w : ByteStream) (start len c : Nat) :
    (1 ≤ len → start + len ≤ w.size →
      w.branch start (some len) =
        .ok ⟨(w.data.drop start).take len, 0, w.little, w.base + start⟩) ∧
    (start ≤ w.size →
      w.branch start none = .ok ⟨w.data.drop start, 0, w.little, w.base + start⟩) ∧
    (w.branch start (some 0) = w.branch start none) ∧
    (1 ≤ len → w.size < start + len → w.branch start (some len) = .error "branch OOB") ∧
    (({ w with off := c } : ByteStream).branch start (some len) = w.branch start (some len)) := by
  refine ⟨?_, ?_, ?_, ?_, ?_⟩
  · intro h1 h2
    unfold ByteStream.branch
    have hlen : ¬(len = 0) := by omega
    simp only [hlen, if_false]
    have hc : ¬((start : Int) + (len : Int) > (w.size : Int)) := by omega
    have hr : ¬((len : Int) < 0) := by omega
    simp [hc, hr]
  · intro h
    unfold ByteStream.branch
    have hc : ¬((start : Int) + ((w.size : Int) - start) > (w.size : Int)) := by omega
    have hr : ¬(((w.size : Int) - (start : Int)) < 0) := by omega
    simp only [hc, if_false, hr]
    have ht : ((w.size : Int) - (start : Int)).toNat = w.size - start := by omega
    rw [ht]
    have hlen : (w.data.drop start).length = w.size - start := by
      simp [ByteStream.size]
    rw [← hlen, List.take_length]
  · unfold ByteStream.branch
    simp
  · intro h1 h2
    unfold ByteStream.branch
    have hlen : ¬(len = 0) := by omega
    simp only [hlen, if_false]
    have hc : (start : Int) + (len : Int) > (w.size : Int) := by omega
    simp [hc]
  · unfold ByteStream.branch
    simp [ByteStream.size]

/-- C1 witness: the amended theorem at `winC1`: `branch(1, 2)` covers
bytes `[2, 3]` with base 1, and `branch(2, 5)` is out of range. -/
theorem C1_branch_amended_witness :
    winC1.branch 1 (some 2) = .ok ⟨[2, 3], 0, true, 1⟩ ∧
    winC1.branch 2 (some 5) = .error "branch OOB" := by
  constructor
  · exact (C1_branch_amended winC1 1 2 0).1 (by decide) (by decide)
  · exact (C1_branch_amended winC1 2 5 0).2.2.2.1 (by decide) (by decide)

/-! ## C2 — failed reads preserve the cursor -/

/-- C2: every read requesting more bytes than `remaining()` fails with an
out-of-range error and leaves the stream object — in particular
`tell()` — unchanged (the error carries the post-call object state). -/
theorem C2_failed_reads_preserve_cursor (s : ByteStream) (len : Nat) :
    (s.remaining < 1 → s.u8 = .err "read OOB" s ∧ s.i8 = .err "read OOB" s) ∧
    (s.remaining < 2 → s.u16 = .err "read OOB" s ∧ s.i16 = .err "read OOB" s) ∧
    (s.remaining < 4 →
      s.u32 = .err "read OOB" s ∧ s.i32 = .err "read OOB" s ∧ s.f32 = .err "read OOB" s) ∧
    (s.remaining < 8 → s.f64 = .err "read OOB" s) ∧
    (s.remaining < len → s.slice len = .err "slice OOB" s ∧ s.readString len = .err "slice OOB" s) := by
  refine ⟨fun h => ⟨?_, ?_⟩, fun h => ⟨?_, ?_⟩, fun h => ⟨?_, ?_, ?_⟩, fun h => ?_, fun h => ⟨?_, ?_⟩⟩ <;>
    simp [ByteStream.u8, ByteStream.i8, ByteStream.u16, ByteStream.i16, ByteStream.u32,
      ByteStream.i32, ByteStream.f32, ByteStream.f64, ByteStream.slice, ByteStream.readString, h]

/-- C2 witness: a fully-consumed 1-byte stream; every hypothesis holds
with `remaining() = 0` (and `len = 3`). -/
theorem C2_failed_reads_witness :
    ((⟨[5], 1, true, 0⟩ : ByteStream).u8 = .err "read OOB" ⟨[5], 1, true, 0⟩) ∧
    ((⟨[5], 1, true, 0⟩ : ByteStream).u16 = .err "read OOB" ⟨[5], 1, true, 0⟩) ∧
    ((⟨[5], 1, true, 0⟩ : ByteStream).u32 = .err "read OOB" ⟨[5], 1, true, 0⟩) ∧
    ((⟨[5], 1, true, 0⟩ : ByteStream).f64 = .err "read OOB" ⟨[5], 1, true, 0⟩) ∧
    ((⟨[5], 1, true, 0⟩ : ByteStream).slice 3 = .err "slice OOB" ⟨[5], 1, true, 0⟩) := by
  have h := C2_failed_reads_preserve_cursor ⟨[5], 1, true, 0⟩ 3
  exact ⟨(h.1 (by decide)).1, (h.2.1 (by decide)).1, (h.2.2.1 (by decide)).1,
    h.2.2.2.1 (by decide), (h.2.2.2.2 (by decide)).1⟩

/-- Decidable equality for `Except` results. -/
instance {ε α : Type} [DecidableEq ε] [DecidableEq α] : DecidableEq (Except ε α) :=
  fun a b =>
    match a, b with
    | .ok x, .ok y =>
      if h : x = y then .isTrue (by rw [h])
      else .isFalse (by intro hc; cases hc; exact h rfl)
    | .error x, .error y =>
      if h : x = y then .isTrue (by rw [h])
      else .isFalse (by intro hc; cases hc; exact h rfl)
    | .ok _, .error _ => .isFalse (by intro hc; cases hc)
    | .error _, .ok _ => .isFalse (by intro hc; cases hc)

/-- A successful `u8` at a cursor strictly inside the window. -/
theorem ByteStream.u8_ok (s : ByteStream) (h : s.off < s.size) :
    s.u8 = .ok (s.data.getD s.off 0) { s with off := s.off + 1 } := by
  unfold ByteStream.u8
  have hr : ¬(s.remaining < 1) := by
    unfold ByteStream.remaining
    omega
  simp [hr]

/-- `readSections` rejects a stream whose first two bytes are not
`FF D8` with the `Not a JPEG` error, before visiting anything. -/
theorem readSectionsA_not_jpeg {σ : Type} (visit : Nat → ByteStream → σ → Except String σ)
    (s : ByteStream) (acc : σ) (hrem : 2 ≤ s.remaining)
    (hbad : ¬(s.data.getD s.off 0 = 0xff ∧ s.data.getD (s.off + 1) 0 = 0xd8)) :
    ∃ s', readSectionsA visit s acc = .err "Not a JPEG (missing SOI)" s' := by
  have hsz : s.off + 2 ≤ s.size := by
    unfold ByteStream.remaining at hrem
    omega
  unfold readSectionsA
  rw [ByteStream.u8_ok s (by omega)]
  dsimp only [Rd.and_then]
  by_cases hb0 : s.data.getD s.off 0 = 0xff
  · rw [if_neg (not_not_intro hb0)]
    rw [ByteStream.u8_ok { s with off := s.off + 1 }
      (by simp only [ByteStream.size] at hsz ⊢; omega)]
    dsimp only [Rd.and_then]
    have hb1 : s.data.getD (s.off + 1) 0 ≠ 0xd8 := fun hc => hbad ⟨hb0, hc⟩
    rw [if_pos hb1]
    exact ⟨_, rfl⟩
  · rw [if_pos hb0]
    exact ⟨_, rfl⟩

/-! ## C3 — inline SLONG entries -/

/-- A TIFF stream whose directory at offset 8 holds exactly one entry:
tag 0x0001, type SLONG (9), count 1, inline value bytes `FF FF FF FF`
(little-endian −1); `total_bytes = 4`, so the value is inline. -/
def tiffC3 : ByteStream :=
  ⟨[0, 0, 0, 0, 0, 0, 0, 0,
    1, 0,
    1, 0, 9, 0, 1, 0, 0, 0, 0xff, 0xff, 0xff, 0xff,
    0, 0, 0, 0], 0, true, 0⟩

/-- C3: a SLONG (type 9), count 1 entry — inline by the
`total_bytes <= 4` rule — is silently skipped by the directory engine
(`readIFD` emits no event for it, because `readValueInline` has no SLONG
case), even though the engine's own indirect decoder `readValueByType`
decodes the same four bytes to the signed scalar −1.  The claim (and
§4.4 of the spec) says the entry is decoded and forwarded to `on_tag`. -/
theorem C3_slong_inline_skipped :
    ((tiffC3.branch 8).map fun dir => readIFD tiffC3 dir .IFD0) = .ok (.ok ([], 0)) ∧
    readValueInline ⟨[0xff, 0xff, 0xff, 0xff], 0, true, 0⟩ 9 1 =
      .ok none ⟨[0xff, 0xff, 0xff, 0xff], 0, true, 0⟩ ∧
    readValueByType ⟨[0xff, 0xff, 0xff, 0xff], 0, true, 0⟩ 9 1 =
      .ok (some (.num (-1))) ⟨[0xff, 0xff, 0xff, 0xff], 4, true, 0⟩ := by
  decide

/-! ## C4 — 0xFF fill bytes before a marker -/

/-- A visitor that records the visited `(marker, payload)` pairs. -/
def collectVisitor : Nat → ByteStream → List (Nat × ByteStream) → Except String (List (Nat × ByteStream)) :=
  fun m s l => .ok (l ++ [(m, s)])

/-- `SOI` followed by one fill `0xFF` and then `EOI`: a minimal legal
JPEG whose only marker is preceded by a run of two `0xFF` bytes. -/
def jpegC4 : ByteStream := ⟨[0xff, 0xd8, 0xff, 0xff, 0xd9], 0, true, 0⟩

/-- C4: on `FF D8 FF FF D9` the part_009 walker (`nextMarker` skips the
fill run) terminates cleanly at `EOI` visiting nothing, and `nextMarker`
itself returns the first non-`0xFF` byte after a `FF FF FF` run; but the
src/src/jpeg.ts walker takes the padding `0xFF` itself as the marker and
proceeds to read a 2-byte segment length through `EOI`, failing with a
bounds error on this legal input. -/
theorem C4_fill_ff_divergence :
    readSectionsB collectVisitor jpegC4 [] = .ok [] ⟨jpegC4.data, 5, true, 0⟩ ∧
    nextMarker ⟨[0xff, 0xff, 0xff, 0xe1], 0, true, 0⟩ =
      .ok 0xe1 ⟨[0xff, 0xff, 0xff, 0xe1], 4, true, 0⟩ ∧
    readSectionsA collectVisitor jpegC4 [] = .err "read OOB" ⟨jpegC4.data, 5, true, 0⟩ := by
  decide

/-! ## C5 — non-JPEG input -/

/-- C5 counterexample: on a buffer not starting with `FF D8`, `parse`
returns a failure result whose code is `UNKNOWN` — not `NOT_JPEG` as the
claim states (`NOT_JPEG` is declared in `ExifErrorCode` but never
produced; the catch-all wraps every thrown error as `UNKNOWN`). -/
theorem C5_notjpeg_counterexample :
    parse ⟨[0, 1, 2, 3, 4, 5], 0, true, 0⟩ {} (fun _ => none) (fun _ => none) (fun _ => none) =
      .failure ⟨.UNKNOWN, "Not a JPEG (missing SOI)"⟩ ∧
    ErrCode.UNKNOWN ≠ ErrCode.NOT_JPEG := by
  constructor
  · rfl
  · decide

/-- C5 (amended): for every input of at least two bytes whose first two
bytes are not `FF D8`, and any options, tag tables and date fallback,
`parse` returns a failure result (never an uncaught fault) carrying the
structured error `{ code: UNKNOWN, message: "Not a JPEG (missing SOI)" }`. -/
theorem C5_notjpeg_failure_result (stream : ByteStream) (opts : ParserOptions)
    (en gn : Nat → Option String) (fb : String → Option Int)
    (hsize : 2 ≤ stream.size)
    (hbad : ¬(stream.data.getD 0 0 = 0xff ∧ stream.data.getD 1 0 = 0xd8)) :
    parse stream opts en gn fb = .failure ⟨.UNKNOWN, "Not a JPEG (missing SOI)"⟩ := by
  obtain ⟨s', hs⟩ := readSectionsA_not_jpeg (parseVisitor opts en gn)
    ⟨stream.data, 0, stream.little, stream.base⟩ (⟨[], none, none⟩ : ParseAcc)
    (by simp [ByteStream.remaining, ByteStream.size] at hsize ⊢; omega)
    (by simpa using hbad)
  unfold parse
  rw [ByteStream.branch_zero]
  simp [hs]

/-- C5 witness: the amended theorem at the 2-byte input `12 34`. -/
theorem C5_notjpeg_failure_witness :
    parse ⟨[0x12, 0x34], 0, true, 0⟩ {} (fun _ => none) (fun _ => none) (fun _ => none) =
      .failure ⟨.UNKNOWN, "Not a JPEG (missing SOI)"⟩ :=
  C5_notjpeg_failure_result ⟨[0x12, 0x34], 0, true, 0⟩ {} (fun _ => none) (fun _ => none)
    (fun _ => none) (by decide) (by decide)

/-! ## C6 — thumbnail presence and absolute offset -/

/-- Componentwise description of the `collectThumbFields` fold for any
initial accumulator. -/
theorem collectThumbFields_aux (l : List Event) (a b c : Option ℚ) :
    l.foldl
      (fun acc e =>
        match e.value with
        | .num q =>
          if e.tagId = 0x0201 then (some q, acc.2.1, acc.2.2)
          else if e.tagId = 0x0202 then (acc.1, some q, acc.2.2)
          else if e.tagId = 0x0103 then (acc.1, acc.2.1, some q)
          else acc
        | _ => acc)
      (a, b, c) =
    (l.foldl (fun acc e => if e.tagId = 0x0201 then
        match e.value with
        | .num q => some q
        | _ => acc
      else acc) a,
     l.foldl (fun acc e => if e.tagId = 0x0202 then
        match e.value with
        | .num q => some q
        | _ => acc
      else acc) b,
     l.foldl (fun acc e => if e.tagId = 0x0103 then
        match e.value with
        | .num q => some q
        | _ => acc
      else acc) c) := by
  induction l generalizing a b c with
  | nil => rfl
  | cons e t ih =>
    simp only [List.foldl_cons]
    have hstep :
        (match e.value with
          | .num q =>
            if e.tagId = 0x0201 then ((some q : Option ℚ), b, c)
            else if e.tagId = 0x0202 then (a, some q, c)
            else if e.tagId = 0x0103 then (a, b, some q)
            else (a, b, c)
          | _ => (a, b, c)) =
        ((if e.tagId = 0x0201 then
            match e.value with
            | .num q => some q
            | _ => a
          else a),
         (if e.tagId = 0x0202 then
            match e.value with
            | .num q => some q
            | _ => b
          else b),
         (if e.tagId = 0x0103 then
            match e.value with
            | .num q => some q
            | _ => c
          else c)) := by
      rcases e with ⟨knd, tagId, v, fmt⟩
      cases v <;> dsimp only
      case num q =>
        by_cases h1 : tagId = 0x0201
        · have n2 : ¬(tagId = 0x0202) := by omega
          have n3 : ¬(tagId = 0x0103) := by omega
          rw [if_pos h1, if_pos h1, if_neg n2, if_neg n3]
        · by_cases h2 : tagId = 0x0202
          · have n3 : ¬(tagId = 0x0103) := by omega
            rw [if_neg h1, if_pos h2, if_neg h1, if_pos h2, if_neg n3]
          · by_cases h3 : tagId = 0x0103
            · rw [if_neg h1, if_neg h2, if_pos h3, if_neg h1, if_neg h2, if_pos h3]
            · rw [if_neg h1, if_neg h2, if_neg h3, if_neg h1, if_neg h2, if_neg h3]
      all_goals
        refine Prod.ext ?_ (Prod.ext ?_ ?_) <;> dsimp only <;> split <;> rfl
    rw [hstep, ih]

/-- The IFD1 collector keeps, for each of the three watched tags, the
last numeric value emitted for that tag. -/
theorem collectThumbFields_eq (events : List Event) :
    collectThumbFields events =
      (lastNumValue events 0x0201, lastNumValue events 0x0202, lastNumValue events 0x0103) := by
  unfold collectThumbFields lastNumValue
  exact collectThumbFields_aux events none none none

/-- C6 counterexample: an IFD1 that yields a thumbnail byte-offset tag
(0x0201, value 0) and a positive length tag (0x0202, value 5), yet
`readThumbnailFromIFD1` reports no thumbnail — `okNumber` also requires
the offset to be strictly positive, which the claim does not. -/
def tiffC6 : ByteStream :=
  ⟨[0, 0, 0, 0, 0, 0, 0, 0,
    2, 0,
    0x01, 0x02, 4, 0, 1, 0, 0, 0, 0, 0, 0, 0,
    0x02, 0x02, 4, 0, 1, 0, 0, 0, 5, 0, 0, 0,
    0, 0, 0, 0], 0, true, 0⟩

/-- C6 counterexample (see `tiffC6`): both tags are yielded to `on_tag`
but the thumbnail is absent because the offset value 0 fails `okNumber`. -/
theorem C6_thumbnail_counterexample :
    readThumbnailFromIFD1 tiffC6 8 =
      .ok (none, [⟨.IFD1, 0x0201, .num 0, 4⟩, ⟨.IFD1, 0x0202, .num 5, 4⟩]) := by
  decide

/-- C6 (amended): for every successfully parsed input, the thumbnail is
present exactly when the Thumbnail directory yielded a *positive*
numeric byte-offset tag (0x0201) and a positive numeric length tag
(0x0202) — the last numeric occurrence of each is kept; when present its
type is JPEG (6) iff the compression tag (0x0103) had value 6 and TIFF
(1) otherwise (including when absent), and the orchestrator sets
`absolute_offset = (APP1 segment base) + (TIFF header offset) +
offset_from_tiff_header`. -/
theorem C6_thumbnail_amended
    (tiff dir seg s0 : ByteStream) (ifd1Off nextOff : Nat) (events evs : List Event)
    (acc : ParseAcc) (opts : ParserOptions) (en gn : Nat → Option String)
    (res : ReadIFDsResult) (t : ThumbRec) :
    (collectThumbFields events =
      (lastNumValue events 0x0201, lastNumValue events 0x0202, lastNumValue events 0x0103)) ∧
    (0 < ifd1Off → tiff.branch ifd1Off = .ok dir →
      readIFD tiff dir .IFD1 = .ok (events, nextOff) →
      ((∃ u, readThumbnailFromIFD1 tiff ifd1Off = .ok (some u, events)) ↔
        (okNum (lastNumValue events 0x0201) ∧ okNum (lastNumValue events 0x0202))) ∧
      (∀ u, readThumbnailFromIFD1 tiff ifd1Off = .ok (some u, events) →
        u.ttype = (if lastNumValue events 0x0103 = some 6 then 6 else 1) ∧
        u.offsetFromTiff = (lastNumValue events 0x0201).getD 0 ∧
        u.length = (lastNumValue events 0x0202).getD 0)) ∧
    (seg.branch 0 = .ok s0 → readIFDs s0 = .ok (res, evs) → res.ok = true →
      res.thumbnail = some t →
      handleApp1 opts en gn seg acc =
        .ok ⟨buildTagsInto opts en gn acc.tags evs, acc.image,
          some ⟨t.ttype, t.offsetFromTiff, t.length,
            some ((seg.baseOffset : ℚ) + (res.tiffBase : ℚ) + t.offsetFromTiff)⟩⟩) := by
  refine ⟨collectThumbFields_eq events, fun h0 hbr hifd => ?_, fun h1 h2 h3 h4 => ?_⟩
  · have hne : ¬(ifd1Off = 0) := by omega
    have hbody : readThumbnailFromIFD1 tiff ifd1Off =
        (if okNum (lastNumValue events 0x0201) ∧ okNum (lastNumValue events 0x0202) then
          .ok (some ⟨if lastNumValue events 0x0103 = some 6 then 6 else 1,
            (lastNumValue events 0x0201).getD 0, (lastNumValue events 0x0202).getD 0,
            lastNumValue events 0x0103⟩, events)
        else .ok (none, events)) := by
      unfold readThumbnailFromIFD1
      rw [if_neg hne, hbr]
      dsimp only
      rw [hifd]
      dsimp only
      rw [collectThumbFields_eq events]
    constructor
    · constructor
      · rintro ⟨u, hu⟩
        rw [hbody] at hu
        by_cases hok : okNum (lastNumValue events 0x0201) ∧ okNum (lastNumValue events 0x0202)
        · exact hok
        · rw [if_neg hok] at hu
          cases hu
      · intro hok
        rw [hbody, if_pos hok]
        exact ⟨_, rfl⟩
    · intro u hu
      rw [hbody] at hu
      by_cases hok : okNum (lastNumValue events 0x0201) ∧ okNum (lastNumValue events 0x0202)
      · rw [if_pos hok] at hu
        cases hu
        exact ⟨rfl, rfl, rfl⟩
      · rw [if_neg hok] at hu
        cases hu
  · unfold handleApp1
    rw [h1]
    dsimp only
    rw [h2]
    dsimp only
    rw [h3, h4]
    dsimp only
    rw [if_pos rfl]

/-- A TIFF stream for the C6 witness: IFD1 at offset 8 with a positive
thumbnail offset (9) and length (5). -/
def tiffC6w : ByteStream :=
  ⟨[0, 0, 0, 0, 0, 0, 0, 0,
    2, 0,
    0x01, 0x02, 4, 0, 1, 0, 0, 0, 9, 0, 0, 0,
    0x02, 0x02, 4, 0, 1, 0, 0, 0, 5, 0, 0, 0,
    0, 0, 0, 0], 0, true, 0⟩

/-- A complete APP1 payload (Exif signature, little-endian TIFF header,
empty IFD0 chained to an IFD1 with thumbnail offset 9 and length 5) at
absolute file offset 100, for the C6 witness. -/
def app1C6 : ByteStream :=
  ⟨[0x45, 0x78, 0x69, 0x66, 0, 0,
    0x49, 0x49, 0x2a, 0, 8, 0, 0, 0,
    0, 0, 14, 0, 0, 0,
    2, 0,
    0x01, 0x02, 4, 0, 1, 0, 0, 0, 9, 0, 0, 0,
    0x02, 0x02, 4, 0, 1, 0, 0, 0, 5, 0, 0, 0,
    0, 0, 0, 0], 0, true, 100⟩

/-- C6 witness: the amended theorem applied at `tiffC6w` (thumbnail
present, both collected values positive) and at `app1C6`
(`absolute_offset = 100 + 6 + 9 = 115`). -/
theorem C6_thumbnail_amended_witness :
    (∃ u, readThumbnailFromIFD1 tiffC6w 8 =
      .ok (some u, [⟨.IFD1, 0x0201, .num 9, 4⟩, ⟨.IFD1, 0x0202, .num 5, 4⟩])) ∧
    handleApp1 {} (fun _ => none) (fun _ => none) app1C6 ⟨[], none, none⟩ =
      .ok ⟨[], none, some ⟨1, 9, 5, some 115⟩⟩ := by
  constructor
  · exact ((C6_thumbnail_amended tiffC6w
      ⟨[2, 0, 1, 2, 4, 0, 1, 0, 0, 0, 9, 0, 0, 0, 2, 2, 4, 0, 1, 0, 0, 0, 5, 0, 0, 0,
        0, 0, 0, 0], 0, true, 8⟩
      tiffC6w tiffC6w 8 0
      [⟨.IFD1, 0x0201, .num 9, 4⟩, ⟨.IFD1, 0x0202, .num 5, 4⟩] [] ⟨[], none, none⟩ {}
      (fun _ => none) (fun _ => none) ⟨true, 0, none⟩ ⟨1, 9, 5, none⟩).2.1
      (by decide) (by decide) (by decide)).1.mpr (by decide)
  · have h := (C6_thumbnail_amended tiffC6w tiffC6w app1C6
      ⟨app1C6.data, 0, true, 100⟩ 8 0 []
      [⟨.IFD1, 0x0201, .num 9, 4⟩, ⟨.IFD1, 0x0202, .num 5, 4⟩]
      ⟨[], none, none⟩ {} (fun _ => none) (fun _ => none)
      ⟨true, 6, some ⟨1, 9, 5, none⟩⟩ ⟨1, 9, 5, none⟩).2.2
      (by decide) (by decide) rfl rfl
    refine h.trans ?_
    norm_num [buildTagsInto, onTagStep, makeTagKey, maybeSimplify, pointerTags, hasTag,
      lookupTag, ByteStream.baseOffset, app1C6]

/-! ## C7 — GPS degree casting -/

/-- `tags[key] = v` then reading `key` gives `v`. -/
theorem lookupTag_setTag_self (m : TagMap) (k : String) (v : Val) :
    lookupTag (setTag m k v) k = some v := by
  induction m with
  | nil => simp [setTag, lookupTag]
  | cons p rest ih =>
    rcases p with ⟨a, b⟩
    by_cases h : a = k
    · subst h
      simp [setTag, lookupTag]
    · simp [setTag, lookupTag, h, ih]

/-- `tags[key] = v` leaves other keys unchanged. -/
theorem lookupTag_setTag_other (m : TagMap) (k k' : String) (v : Val) (h : k' ≠ k) :
    lookupTag (setTag m k v) k' = lookupTag m k' := by
  have hkk : ¬(k = k') := fun hc => h hc.symm
  induction m with
  | nil => simp [setTag, lookupTag, hkk]
  | cons p rest ih =>
    rcases p with ⟨a, b⟩
    by_cases ha : a = k
    · subst ha
      simp [setTag, lookupTag, hkk]
    · by_cases ha' : a = k'
      · simp [setTag, lookupTag, ha, ha', h]
      · simp [setTag, lookupTag, ha, ha', ih]

/-- A degree-casting step only writes its own tag name. -/
theorem lookupTag_castDegreeStep_other (m : TagMap) (name refName pos k : String)
    (h : k ≠ name) :
    lookupTag (castDegreeStep m name refName pos) k = lookupTag m k := by
  unfold castDegreeStep
  cases hl : lookupTag m name with
  | none => rfl
  | some v =>
    dsimp only
    cases hj : jsArr3 v with
    | none => rfl
    | some t => exact lookupTag_setTag_other m name k _ h

/-- A degree-casting step on a 3-element numeric array writes the signed
decimal degrees back under the same name. -/
theorem castDegreeStep_sets (m : TagMap) (name refName pos : String) (d mi se : ℚ)
    (h : lookupTag m name = some (.nums [some d, some mi, some se])) :
    castDegreeStep m name refName pos =
      setTag m name (.num ((d + mi / 60 + se / 3600) *
        (if lookupTag m refName = some (.str pos) then 1 else -1))) := by
  unfold castDegreeStep
  rw [h]
  dsimp only [jsArr3]

/-- C7 counterexample: with `GPSLatitude = [10, 30, 0]` and *no*
`GPSLatitudeRef` tag, the code writes −10.5 (`sign = ref === 'N' ? +1 :
-1` makes the absent-reference default negative), where the claim says
the absent reference defaults to the positive N/E sign (+10.5). -/
theorem C7_absent_ref_counterexample :
    lookupTag (castDegreeValues [("GPSLatitude", .nums [some 10, some 30, some 0])])
      "GPSLatitude" = some (.num (-21 / 2)) ∧
    (Val.num (-21 / 2)) ≠ (Val.num (21 / 2)) := by
  constructor
  · norm_num [castDegreeValues, castDegreeStep, lookupTag, jsArr3, setTag]
    all_goals decide
  · simp only [ne_eq, Val.num.injEq]
    norm_num

/-- C7 (amended): for a `GPSLatitude` (resp. `GPSLongitude`) tag holding
a 3-element numeric array `[deg, min, sec]`, the value written back
under the same name is `deg + min/60 + sec/3600`, negated exactly when
the paired reference tag differs from `"N"` (resp. `"E"`) — including
when the reference tag is absent or holds any other value, `"S"`/`"W"`
in particular.  The claim's example (`[10, 30, 0]` with ref `"S"` ↦
−10.5) holds. -/
theorem C7_gps_degrees_amended (m : TagMap) (d mi se : ℚ) :
    (lookupTag m "GPSLatitude" = some (.nums [some d, some mi, some se]) →
      lookupTag (castDegreeValues m) "GPSLatitude" =
        some (.num ((d + mi / 60 + se / 3600) *
          (if lookupTag m "GPSLatitudeRef" = some (.str "N") then 1 else -1)))) ∧
    (lookupTag m "GPSLongitude" = some (.nums [some d, some mi, some se]) →
      lookupTag (castDegreeValues m) "GPSLongitude" =
        some (.num ((d + mi / 60 + se / 3600) *
          (if lookupTag m "GPSLongitudeRef" = some (.str "E") then 1 else -1)))) ∧
    lookupTag (castDegreeValues [("GPSLatitude", .nums [some 10, some 30, some 0]),
      ("GPSLatitudeRef", .str "S")]) "GPSLatitude" = some (.num (-21 / 2)) := by
  refine ⟨fun h => ?_, fun h => ?_, ?_⟩
  · unfold castDegreeValues
    rw [lookupTag_castDegreeStep_other _ _ _ _ _ (by decide),
      castDegreeStep_sets m _ _ _ d mi se h, lookupTag_setTag_self]
  · unfold castDegreeValues
    have hLon : lookupTag (castDegreeStep m "GPSLatitude" "GPSLatitudeRef" "N")
        "GPSLongitude" = lookupTag m "GPSLongitude" :=
      lookupTag_castDegreeStep_other m _ _ _ _ (by decide)
    have hRef : lookupTag (castDegreeStep m "GPSLatitude" "GPSLatitudeRef" "N")
        "GPSLongitudeRef" = lookupTag m "GPSLongitudeRef" :=
      lookupTag_castDegreeStep_other m _ _ _ _ (by decide)
    rw [castDegreeStep_sets _ _ _ _ d mi se (hLon.trans h), lookupTag_setTag_self, hRef]
  · norm_num [castDegreeValues, castDegreeStep, lookupTag, jsArr3, setTag]
    all_goals decide

/-- C7 witness: the amended theorem at a map holding latitude
`[10, 30, 0]` with ref `"S"` (negated) and longitude `[20, 0, 0]` with
ref `"E"` (positive). -/
theorem C7_gps_degrees_witness :
    lookupTag (castDegreeValues
      [("GPSLatitude", .nums [some 10, some 30, some 0]), ("GPSLatitudeRef", .str "S"),
       ("GPSLongitude", .nums [some 20, some 0, some 0]), ("GPSLongitudeRef", .str "E")])
      "GPSLatitude" = some (.num (-21 / 2)) ∧
    lookupTag (castDegreeValues
      [("GPSLatitude", .nums [some 10, some 30, some 0]), ("GPSLatitudeRef", .str "S"),
       ("GPSLongitude", .nums [some 20, some 0, some 0]), ("GPSLongitudeRef", .str "E")])
      "GPSLongitude" = some (.num 20) := by
  constructor
  · refine ((C7_gps_degrees_amended _ 10 30 0).1 (by decide)).trans ?_
    norm_num [lookupTag]
    all_goals decide
  · refine ((C7_gps_degrees_amended _ 20 0 0).2.1 (by decide)).trans ?_
    norm_num [lookupTag]
    all_goals decide

/-! ## C8 — rational simplification -/

/-- C8: under the default policy (`zeroDenIsNull = true`), a single
`[num, den]` pair simplifies to `num/den` for `den ≠ 0` and to `null`
for `den = 0`; an array of pairs maps element-wise, a resulting
1-element array collapsing to its scalar; and the claim's examples
`[18,10] ↦ 1.8`, `[0,0] ↦ null`, `[[240,1],[300,1]] ↦ [240,300]` hold. -/
theorem C8_simplify_rationals_default (n d : ℚ) (l : List (ℚ × ℚ)) :
    (d ≠ 0 → simplifyRationals (.pair n d) = .num (n / d)) ∧
    (simplifyRationals (.pair n 0) = .null) ∧
    (2 ≤ l.length →
      simplifyRationals (.pairs l) =
        .nums (l.map fun p => if p.2 = 0 then none else some (p.1 / p.2))) ∧
    (simplifyRationals (.pairs [(n, d)]) = if d = 0 then .null else .num (n / d)) ∧
    simplifyRationals (.pair 18 10) = .num 1.8 ∧
    simplifyRationals (.pair 0 0) = .null ∧
    simplifyRationals (.pairs [(240, 1), (300, 1)]) = .nums [some 240, some 300] := by
  refine ⟨fun h => by simp [simplifyRationals, h], by simp [simplifyRationals],
    fun h => ?_, ?_, ?_, by simp [simplifyRationals], ?_⟩
  · match l, h with
    | (a :: b :: t), _ =>
      simp only [simplifyRationals, rationalToNum, List.map_cons]
      split
      · rename_i heq
        cases t <;> simp_all
      · rename_i heq
        cases t <;> simp_all
      · rfl
  · by_cases hd : d = 0 <;> simp [simplifyRationals, rationalToNum, hd]
  · norm_num [simplifyRationals]
  · norm_num [simplifyRationals, rationalToNum]

/-- C8 witness: the theorem at `n = 18`, `d = 10` and
`l = [(240,1),(300,1)]`. -/
theorem C8_simplify_rationals_witness :
    simplifyRationals (.pair 18 10) = .num (9 / 5) ∧
    simplifyRationals (.pairs [(240, 1), (300, 1)]) =
      .nums [some (240 / 1), some (300 / 1)] := by
  constructor
  · exact ((C8_simplify_rationals_default 18 10 []).1 (by norm_num)).trans (by norm_num)
  · exact ((C8_simplify_rationals_default 18 10 [(240, 1), (300, 1)]).2.2.1
      (by decide)).trans (by norm_num)

/-! ## C9 — first-writer-wins tag maps -/

/-- The (key, value) pair an event contributes to the map, if any: the
binary-tag and pointer-tag filters, the `returnTags` option, the key
resolution and the simplification of the parser's `onTag` callback. -/
def emitKV (opts : ParserOptions) (exifNames gpsNames : Nat → Option String)
    (e : Event) : Option (String × Val) :=
  if !opts.readBinaryTags ∧ e.fmt = 7 then none
  else if opts.hidePointers ∧ e.tagId ∈ pointerTags then none
  else if opts.returnTags then
    some (makeTagKey exifNames gpsNames e.knd e.tagId,
      maybeSimplify e.value e.fmt opts.simplifyValues)
  else none

/-- First-defined choice of two optional values. -/
def firstSome (a b : Option Val) : Option Val :=
  match a with
  | some v => some v
  | none => b

/-- `firstSome` with an empty fallback. -/
theorem firstSome_none_right (a : Option Val) : firstSome a none = a := by
  cases a <;> rfl

/-- `firstSome` is associative. -/
theorem firstSome_assoc (a b c : Option Val) :
    firstSome (firstSome a b) c = firstSome a (firstSome b c) := by
  cases a <;> rfl

/-- Appending one fresh pair affects only its own key, as a fallback. -/
theorem lookupTag_append_single (m : TagMap) (key k : String) (v : Val) :
    lookupTag (m ++ [(key, v)]) k =
      firstSome (lookupTag m k) (if key = k then some v else none) := by
  induction m with
  | nil => simp [lookupTag, firstSome]
  | cons p rest ih =>
    rcases p with ⟨a, b⟩
    by_cases ha : a = k
    · simp [lookupTag, ha, firstSome]
    · simp [lookupTag, ha, ih]

/-- An event the callback filters out leaves the map untouched. -/
theorem onTagStep_emit_none (opts : ParserOptions) (en gn : Nat → Option String)
    (m : TagMap) (e : Event) (h : emitKV opts en gn e = none) :
    onTagStep opts en gn m e = m := by
  unfold onTagStep
  unfold emitKV at h
  by_cases h1 : (!opts.readBinaryTags) = true ∧ e.fmt = 7
  · simp [h1]
  · by_cases h2 : opts.hidePointers = true ∧ e.tagId ∈ pointerTags
    · simp [h1, h2]
    · simp only [h1, h2, if_false] at h ⊢
      by_cases h3 : opts.returnTags = true
      · simp [h3] at h
      · simp [h3]

/-- An event the callback emits is inserted only when its key is absent. -/
theorem onTagStep_emit_some (opts : ParserOptions) (en gn : Nat → Option String)
    (m : TagMap) (e : Event) (key : String) (out : Val)
    (h : emitKV opts en gn e = some (key, out)) :
    onTagStep opts en gn m e = if hasTag m key then m else m ++ [(key, out)] := by
  unfold onTagStep
  unfold emitKV at h
  by_cases h1 : (!opts.readBinaryTags) = true ∧ e.fmt = 7
  · simp [h1] at h
  · by_cases h2 : opts.hidePointers = true ∧ e.tagId ∈ pointerTags
    · simp [h1, h2] at h
    · simp only [h1, h2, if_false] at h ⊢
      by_cases h3 : opts.returnTags = true
      · simp only [h3, if_true] at h
        cases h
        cases h4 : hasTag m (makeTagKey en gn e.knd e.tagId) <;> simp [h3, h4]
      · simp [h3] at h

/-- The fold over events resolves a key to the first emitted value. -/
theorem buildTagsInto_lookup (opts : ParserOptions) (en gn : Nat → Option String)
    (init : TagMap) (events : List Event) (k : String) :
    lookupTag (buildTagsInto opts en gn init events) k =
      firstSome (lookupTag init k) (lookupTag (events.filterMap (emitKV opts en gn)) k) := by
  induction events generalizing init with
  | nil =>
    simp only [buildTagsInto, List.foldl_nil, List.filterMap_nil]
    rw [show lookupTag [] k = none from rfl, firstSome_none_right]
  | cons e t ih =>
    cases hemit : emitKV opts en gn e with
    | none =>
      have hstep : buildTagsInto opts en gn init (e :: t) = buildTagsInto opts en gn init t := by
        simp only [buildTagsInto, List.foldl_cons, onTagStep_emit_none opts en gn init e hemit]
      rw [hstep, ih init]
      simp only [List.filterMap_cons, hemit]
    | some kv =>
      rcases kv with ⟨key, out⟩
      have hstep : buildTagsInto opts en gn init (e :: t) =
          buildTagsInto opts en gn (if hasTag init key then init else init ++ [(key, out)]) t := by
        simp only [buildTagsInto, List.foldl_cons,
          onTagStep_emit_some opts en gn init e key out hemit]
      rw [hstep, ih]
      simp only [List.filterMap_cons, hemit]
      have hcons : lookupTag ((key, out) :: t.filterMap (emitKV opts en gn)) k =
          if key = k then some out else lookupTag (t.filterMap (emitKV opts en gn)) k := rfl
      rw [hcons]
      by_cases hpres : hasTag init key
      · rw [if_pos hpres]
        by_cases hk : key = k
        · subst hk
          unfold hasTag at hpres
          cases hv : lookupTag init key with
          | none => rw [hv] at hpres; simp at hpres
          | some v => rfl
        · rw [if_neg hk]
      · rw [if_neg hpres, lookupTag_append_single, firstSome_assoc]
        congr 1
        by_cases hk : key = k
        · rw [if_pos hk, if_pos hk]
          rfl
        · rw [if_neg hk, if_neg hk]
          rfl

/-- C9: tag-map construction is first-writer-wins per key — looking up a
key in the map built from the emitted events (in traversal order
Primary, Extended, GPS, Thumbnail, starting from the map accumulated so
far) returns the value of the first event that resolved to that key,
with every later same-key value silently dropped; and every successful
parse result has `tagsRaw` literally equal to `tags` (so the two maps
hold exactly the same keys). -/
theorem C9_first_writer_wins (opts : ParserOptions) (en gn : Nat → Option String)
    (init : TagMap) (events : List Event) (k : String) (stream : ByteStream)
    (fb : String → Option Int) :
    (lookupTag (buildTagsInto opts en gn init events) k =
      firstSome (lookupTag init k)
        (lookupTag (events.filterMap (emitKV opts en gn)) k)) ∧
    (∀ d, parse stream opts en gn fb = .success d → d.tagsRaw = d.tags) := by
  refine ⟨buildTagsInto_lookup opts en gn init events k, fun d h => ?_⟩
  unfold parse at h
  cases hbr : stream.branch 0 with
  | error e =>
    rw [hbr] at h
    dsimp only at h
    cases h
  | ok s0 =>
    rw [hbr] at h
    dsimp only at h
    cases hrs : readSectionsA (parseVisitor opts en gn) s0 ⟨[], none, none⟩ with
    | err e s' =>
      rw [hrs] at h
      dsimp only at h
      cases h
    | ok acc s' =>
      rw [hrs] at h
      dsimp only at h
      cases h
      rfl

/-- C9 witness: two entries from different directories (Primary and
Extended) resolving to the same key `tag_0x10f` — the Primary value
`"A"` is kept, the Extended value `"B"` dropped; and the theorem applied
to the successful parse of a minimal JPEG `FF D8 FF D9`. -/
theorem C9_first_writer_wins_witness :
    lookupTag (buildTagsInto {} (fun _ => none) (fun _ => none) []
      [⟨.IFD0, 0x010f, .str "A", 2⟩, ⟨.SubIFD, 0x010f, .str "B", 2⟩]) "tag_0x10f" =
      some (.str "A") ∧
    (⟨none, none, [], []⟩ : ParsedExif).tagsRaw = (⟨none, none, [], []⟩ : ParsedExif).tags := by
  constructor
  · exact ((C9_first_writer_wins {} (fun _ => none) (fun _ => none) []
      [⟨.IFD0, 0x010f, .str "A", 2⟩, ⟨.SubIFD, 0x010f, .str "B", 2⟩] "tag_0x10f"
      ⟨[0xff, 0xd8, 0xff, 0xd9], 0, true, 0⟩ (fun _ => none)).1).trans (by decide)
  · exact (C9_first_writer_wins {} (fun _ => none) (fun _ => none) []
      [⟨.IFD0, 0x010f, .str "A", 2⟩, ⟨.SubIFD, 0x010f, .str "B", 2⟩] "tag_0x10f"
      ⟨[0xff, 0xd8, 0xff, 0xd9], 0, true, 0⟩ (fun _ => none)).2
      ⟨none, none, [], []⟩ (by rfl)

/-! ## C10 — segments with length field 2 (payload length 0) -/

/-- `branch(start, 0)`: the explicit length 0 is falsy, so the window
covers `[start, size)` — the rest of the parent. -/
theorem ByteStream.branch_rest (s : ByteStream) (start : Nat) (h : start ≤ s.size) :
    s.branch start (some 0) = .ok ⟨s.data.drop start, 0, s.little, s.base + start⟩ := by
  unfold ByteStream.branch
  dsimp only
  rw [if_pos rfl]
  have hc : ¬((start : Int) + ((s.size : Int) - start) > (s.size : Int)) := by omega
  have hr : ¬(((s.size : Int) - (start : Int)) < 0) := by omega
  rw [if_neg hc, if_neg hr]
  have ht : ((s.size : Int) - (start : Int)).toNat = s.size - start := by omega
  rw [ht]
  have hlen : (s.data.drop start).length = s.size - start := by simp [ByteStream.size]
  rw [← hlen, List.take_length]

/-- C10: in the segment body shared by both `readSections` walkers
(`processSegment`, reached for every marker carrying a length), a 2-byte
length field equal to 2 gives `payload_len = 0`, and the branched
payload window passed to the visitor spans from the payload position to
the END of the parent window — because `branch` treats the explicit
length 0 as "length omitted" — rather than being an empty window; the
walker then advances by 0 bytes. -/
theorem C10_zero_length_segment (s : ByteStream)
    (h0 : s.data.getD s.off 0 = 0) (h1 : s.data.getD (s.off + 1) 0 = 2)
    (hsz : s.off + 2 ≤ s.size) :
    processSegment s =
      .ok ⟨s.data.drop (s.off + 2), 0, s.little, s.base + (s.off + 2)⟩
        { s with off := s.off + 2 } := by
  unfold processSegment
  rw [ByteStream.u8_ok s (by simp only [ByteStream.size] at hsz ⊢; omega)]
  dsimp only [Rd.and_then]
  rw [ByteStream.u8_ok { s with off := s.off + 1 }
    (by simp only [ByteStream.size] at hsz ⊢; omega)]
  dsimp only [Rd.and_then]
  rw [h0, h1]
  dsimp only [ByteStream.tell]
  have hA : (0 : Nat) * 256 + 2 = 2 := by norm_num
  rw [hA]
  have hcond : ¬((((2 : Nat) : Int) - 2) < 0 ∨
      (((2 : Nat) : Int) - 2) > ((ByteStream.remaining { s with off := s.off + 2 } : Nat) : Int)) := by
    omega
  rw [if_neg hcond]
  have htn : (((2 : Nat) : Int) - 2).toNat = 0 := by omega
  rw [htn]
  rw [ByteStream.branch_rest { s with off := s.off + 2 } (s.off + 2)
    (by simp only [ByteStream.size] at hsz ⊢; omega)]
  dsimp only
  unfold ByteStream.skip ByteStream.seek
  have hno : ¬(s.off + 2 + 0 > ByteStream.size { s with off := s.off + 2 }) := by
    simp only [ByteStream.size] at hsz ⊢
    omega
  rw [if_neg hno]

/-- C10 witness: the theorem at a concrete stream positioned on a
length field `00 02`: the section handed to the visitor is the whole
rest of the parent (`FF D9`, 2 bytes), not an empty window. -/
theorem C10_zero_length_segment_witness :
    processSegment ⟨[0xff, 0xd8, 0xff, 0xe1, 0, 2, 0xff, 0xd9], 4, true, 0⟩ =
      .ok ⟨[0xff, 0xd9], 0, true, 6⟩
        ⟨[0xff, 0xd8, 0xff, 0xe1, 0, 2, 0xff, 0xd9], 6, true, 0⟩ :=
  (C10_zero_length_segment ⟨[0xff, 0xd8, 0xff, 0xe1, 0, 2, 0xff, 0xd9], 4, true, 0⟩
    (by decide) (by decide) (by decide)).trans (by decide)
